import Mathlib

/-!
Verification of the smallworlds predator-prey simulation engine.

The development shallowly embeds the engine (`organism.py`, `population.py`,
`simulation.py`) in Lean.  Floating-point scalars of the source are modelled
as reals in the geometric neighbour-range bound, as rationals in the
neighbour-range computation, and as integers in the executable engine state
(the concrete scenarios place organisms on an integer grid; the general
engine theorems quantify over the navigator, so nothing there depends on the
scalar grain); Python's `random.randint(0, 100)` draws are modelled
as an explicit oracle stream of values in `Fin 101`; the pluggable navigator
(spec section 6 treats it as an external collaborator) is a parameter record.
Python's `for x in lst` over a list that is mutated by `lst.remove` during the
traversal is modelled exactly: the iterator walks by index over the current
list, so a removal shifts later elements one slot left under the iterator.
-/

set_option maxHeartbeats 1000000

/-! ## Geometry: `ClassicNavigator.calculate_distance` and the neighbour-range
formula of `Simulation.calculate_neighbour_range`, over the reals. -/

noncomputable section

/-- `ClassicNavigator.calculate_distance`: Euclidean distance between two
2-d points, `np.linalg.norm(b - a)`. -/
def calculate_distance (a b : ℝ × ℝ) : ℝ :=
  Real.sqrt ((b.1 - a.1) ^ 2 + (b.2 - a.2) ^ 2)

/-- The neighbour-range expression `max_speed * (2 * neighbour_update_interval + 2)`
from `Simulation.calculate_neighbour_range`, before the `int(...)` truncation. -/
def neighbour_range_formula (v : ℝ) (k : ℕ) : ℝ :=
  v * (2 * (k : ℝ) + 2)

/-- A trajectory that moves at most `v` per tick (speed bound of the claim). -/
def boundedStep (v : ℝ) (p : ℕ → ℝ × ℝ) : Prop :=
  ∀ t, calculate_distance (p t) (p (t + 1)) ≤ v

/-- The C1 claim, as stated: within a refresh window of `k` ticks, any pair of
`v`-bounded trajectories that comes within `fr` (the feeding range) at some
tick `t ≤ k` was already within `v*(2k+2)` of each other at the window start. -/
def neighbour_non_miss (v : ℝ) (k : ℕ) (fr : ℝ) : Prop :=
  ∀ p q : ℕ → ℝ × ℝ, boundedStep v p → boundedStep v q →
    ∀ t ≤ k, calculate_distance (p t) (q t) ≤ fr →
      calculate_distance (p 0) (q 0) ≤ neighbour_range_formula v k

lemma calculate_distance_eq_abs (a b : ℝ × ℝ) :
    calculate_distance a b = Complex.abs ⟨b.1 - a.1, b.2 - a.2⟩ := by
  rw [Complex.abs_apply, Complex.normSq_mk, calculate_distance]
  congr 1
  ring

lemma calculate_distance_self (a : ℝ × ℝ) : calculate_distance a a = 0 := by
  simp [calculate_distance]

lemma calculate_distance_nonneg (a b : ℝ × ℝ) : 0 ≤ calculate_distance a b :=
  Real.sqrt_nonneg _

lemma calculate_distance_triangle (a b c : ℝ × ℝ) :
    calculate_distance a c ≤ calculate_distance a b + calculate_distance b c := by
  rw [calculate_distance_eq_abs, calculate_distance_eq_abs, calculate_distance_eq_abs]
  have h : (⟨c.1 - a.1, c.2 - a.2⟩ : ℂ) =
      (⟨b.1 - a.1, b.2 - a.2⟩ : ℂ) + (⟨c.1 - b.1, c.2 - b.2⟩ : ℂ) := by
    apply Complex.ext <;> simp
  rw [h]
  exact Complex.abs.add_le _ _

lemma calculate_distance_comm (a b : ℝ × ℝ) :
    calculate_distance a b = calculate_distance b a := by
  rw [calculate_distance, calculate_distance]
  congr 1
  ring

lemma boundedStep_chain {v : ℝ} {p : ℕ → ℝ × ℝ} (h : boundedStep v p) :
    ∀ t, calculate_distance (p 0) (p t) ≤ v * t := by
  intro t
  induction t with
  | zero => simp [calculate_distance_self]
  | succ t ih =>
      calc calculate_distance (p 0) (p (t + 1))
          ≤ calculate_distance (p 0) (p t) + calculate_distance (p t) (p (t + 1)) :=
            calculate_distance_triangle _ _ _
        _ ≤ v * t + v := add_le_add ih (h t)
        _ = v * (t + 1 : ℕ) := by push_cast; ring

end

/-! ## Engine state: `Organism`, `Population`, `Simulation`

Organisms live in a global arena (`World`) and are referenced by arena index,
mirroring Python's reference semantics: a predator's `neighbours` list and a
population's `living_individuals` list alias the same mutable organism.
The per-species `id` counter of `Organism.get_new_id` (global hidden state,
read by no modelled operation) is not modelled. -/

/-- The `individuals_specs` record handed to the `Organism` constructor
(minus the navigator, which is a separate parameter here). -/
structure OrgSpec where
  species_name : String
  trophic_level : ℤ
  speed : ℤ
  base_hunger : ℕ
  feeding_range : ℤ
  feeding_chance : ℕ
  offspring_chance : ℕ
  litter_size : ℕ
deriving Repr, DecidableEq

/-- The mutable attribute record of one `Organism` instance.  `offspring` and
`neighbours` hold arena indices of other organisms. -/
structure Org where
  species_name : String
  trophic_level : ℤ
  speed : ℤ
  base_hunger : ℕ
  feeding_range : ℤ
  feeding_chance : ℕ
  offspring_chance : ℕ
  litter_size : ℕ
  offspring : List ℕ
  neighbours : List ℕ
  hunger : ℤ
  position : ℤ × ℤ
  velocity : ℤ × ℤ
  reproduced_this_epoch : Bool
  is_alive : Bool
deriving Repr, DecidableEq

/-- `Organism.__init__`: parameter-dependent attributes from the spec record,
parameter-independent attributes `offspring=[]`, `neighbours=[]`, `hunger=0`,
`position=np.zeros(2)`, `velocity=np.zeros(2)`, `reproduced_this_epoch=False`,
`is_alive=False`. -/
def Organism.init (s : OrgSpec) : Org :=
  { species_name := s.species_name
    trophic_level := s.trophic_level
    speed := s.speed
    base_hunger := s.base_hunger
    feeding_range := s.feeding_range
    feeding_chance := s.feeding_chance
    offspring_chance := s.offspring_chance
    litter_size := s.litter_size
    offspring := []
    neighbours := []
    hunger := 0
    position := (0, 0)
    velocity := (0, 0)
    reproduced_this_epoch := false
    is_alive := false }

def defaultSpec : OrgSpec := ⟨"", 0, 0, 0, 0, 0, 0, 0⟩

/-- The spatial strategy consumed by the engine (spec section 6 treats it as an
external collaborator).  `move` receives position, speed and the neighbour
list, exactly as at the call site in `Organism.move`; its stochastic
`initialise` outcome (source name: `initialize`) is a fixed parameter of the
oracle instance. -/
structure Navigator where
  move : (ℤ × ℤ) → ℤ → List ℕ → (ℤ × ℤ) × (ℤ × ℤ)
  is_in_range : (ℤ × ℤ) → (ℤ × ℤ) → ℤ → Bool
  initialise : (ℤ × ℤ) × (ℤ × ℤ)

/-- The global organism arena: Python's heap of `Organism` objects, indexed by
allocation order. -/
structure World where
  orgs : ℕ → Org
  size : ℕ

def World.get (w : World) (i : ℕ) : Org := w.orgs i

def World.set (w : World) (i : ℕ) (o : Org) : World :=
  ⟨Function.update w.orgs i o, w.size⟩

def World.modify (w : World) (i : ℕ) (f : Org → Org) : World :=
  w.set i (f (w.get i))

/-- Object allocation: the new organism gets the next arena index. -/
def World.alloc (w : World) (o : Org) : World × ℕ :=
  (⟨Function.update w.orgs w.size o, w.size + 1⟩, w.size)

def emptyWorld : World := ⟨fun _ => Organism.init defaultSpec, 0⟩

@[simp] lemma World.get_set_self (w : World) (i : ℕ) (o : Org) :
    (w.set i o).get i = o := by
  simp [World.get, World.set]

lemma World.get_set_ne (w : World) {i j : ℕ} (o : Org) (h : j ≠ i) :
    (w.set i o).get j = w.get j := by
  simp [World.get, World.set, Function.update_noteq h]

lemma World.get_set (w : World) (i j : ℕ) (o : Org) :
    (w.set i o).get j = if j = i then o else w.get j := by
  by_cases h : j = i
  · subst h; simp
  · simp [World.get_set_ne w o h, h]

@[simp] lemma World.get_modify_self (w : World) (i : ℕ) (f : Org → Org) :
    (w.modify i f).get i = f (w.get i) := by
  simp [World.modify]

lemma World.get_modify (w : World) (i j : ℕ) (f : Org → Org) :
    (w.modify i f).get j = if j = i then f (w.get i) else w.get j := by
  simp [World.modify, World.get_set]

/-- `Organism.is_successful_attempt`: draw `random.randint(0, 100)` and succeed
iff the draw is `<= reference`.  The draw comes from the oracle stream. -/
def is_successful_attempt (draw : Fin 101) (reference : ℕ) : Bool :=
  draw.val ≤ reference

/-- `Organism.outrank`. -/
def Org.outrank (o nb : Org) : Bool := nb.trophic_level < o.trophic_level

/-- `Organism.is_satiated`: `hunger <= 0`. -/
def Org.is_satiated (o : Org) : Bool := o.hunger ≤ 0

/-- `Organism.be_eaten`: die, and yield `int(base_hunger / 5) + 1` food.
(`base_hunger` is a non-negative integer, so Python's truncating `int` of the
float quotient is natural-number division.) -/
def Org.be_eaten (o : Org) : Org × ℕ :=
  ({ o with is_alive := false }, o.base_hunger / 5 + 1)

/-- `Organism.feed`: `hunger -= food`. -/
def Org.feed (o : Org) (food : ℕ) : Org := { o with hunger := o.hunger - food }

/-- `Organism.remove_from_neighbours`: `self.neighbours.remove(neighbour)`,
removal of the first occurrence. -/
def Org.remove_from_neighbours (o : Org) (nb : ℕ) : Org :=
  { o with neighbours := o.neighbours.erase nb }

lemma length_erase_le (l : List ℕ) (a : ℕ) : (l.erase a).length ≤ l.length :=
  (List.erase_sublist a l).length_le

/-! ### `Organism.eat`

Python's `for neighbour in self.neighbours` walks an index through the live
list object.  `remove_from_neighbours` mutates that same list, so after a
removal the iterator's next index lands one element further along the shifted
list.  The loop below reads the eater's current neighbour list from the world
at every step and advances the index unconditionally, which is exactly that
semantics.  On a successful feeding attempt the method returns immediately.

The first argument is recursion fuel.  The index grows by one per step while
the list never grows, so from index `i` the loop takes at most `length - i`
steps; `Organism.eat` passes the full list length, and `eatLoop_fuel_ext`
below shows any fuel above that threshold computes the same result, so the
fuelled loop is exactly Python's unbounded `for` loop. -/

def eatLoop (nav : Navigator) (rng : ℕ → Fin 101) :
    ℕ → World → ℕ → ℕ → ℕ → World × ℕ
  | 0, w, _, _, c => (w, c)
  | fuel + 1, w, e, i, c =>
    if h : i < (w.get e).neighbours.length then
      let nbId := (w.get e).neighbours.get ⟨i, h⟩
      if (w.get nbId).is_alive then
        if (w.get e).outrank (w.get nbId) &&
            nav.is_in_range (w.get e).position (w.get nbId).position
              (w.get e).feeding_range then
          if is_successful_attempt (rng c) (w.get e).feeding_chance then
            let pr := (w.get nbId).be_eaten
            (((w.set nbId pr.1).modify e (fun o => o.feed pr.2)), c + 1)
          else
            eatLoop nav rng fuel w e (i + 1) (c + 1)
        else
          eatLoop nav rng fuel w e (i + 1) c
      else
        eatLoop nav rng fuel
          (w.modify e (fun o => o.remove_from_neighbours nbId)) e (i + 1) c
    else
      (w, c)

/-- `Organism.eat`: iterate the neighbour list from the start. -/
def Organism.eat (nav : Navigator) (rng : ℕ → Fin 101) (w : World) (e c : ℕ) :
    World × ℕ :=
  eatLoop nav rng ((w.get e).neighbours.length) w e 0 c

/-- `Organism.move`: query the navigator with position, speed and neighbours;
store the new position and set `velocity = speed * orientation`. -/
def Organism.move (nav : Navigator) (w : World) (e : ℕ) : World :=
  let o := w.get e
  let r := nav.move o.position o.speed o.neighbours
  w.set e { o with position := r.1,
                   velocity := (o.speed * r.2.1, o.speed * r.2.2) }

/-- `Organism.produce_offspring` body: construct one child with the parent's
species parameters (a fresh heap object) and append its reference to the
parent's `offspring` list. -/
def produceOne (w : World) (p : ℕ) : World :=
  let o := w.get p
  let r := w.alloc (Organism.init
    ⟨o.species_name, o.trophic_level, o.speed, o.base_hunger, o.feeding_range,
     o.feeding_chance, o.offspring_chance, o.litter_size⟩)
  r.1.modify p (fun q => { q with offspring := q.offspring ++ [r.2] })

/-- `Organism.produce_offspring`: `for i in range(self.litter_size)`. -/
def produceLoop (w : World) (p : ℕ) : ℕ → World
  | 0 => w
  | n + 1 => produceLoop (produceOne w p) p n

def Organism.produce_offspring (w : World) (p : ℕ) : World :=
  produceLoop w p (w.get p).litter_size

/-- `Organism.reproduce`: if satiated and the stochastic trial against
`offspring_chance` succeeds, produce offspring.  Python's `and` short-circuits,
so the draw is consumed only when the satiation test passes. -/
def Organism.reproduce (rng : ℕ → Fin 101) (w : World) (e c : ℕ) :
    World × ℕ :=
  if (w.get e).is_satiated then
    if is_successful_attempt (rng c) (w.get e).offspring_chance then
      (Organism.produce_offspring w e, c + 1)
    else (w, c + 1)
  else (w, c)

/-- `Organism.advance_time`: `move`, then `eat`, then `reproduce`. -/
def Organism.advance_time (nav : Navigator) (rng : ℕ → Fin 101) (w : World)
    (e c : ℕ) : World × ℕ :=
  let w1 := Organism.move nav w e
  let r := Organism.eat nav rng w1 e c
  Organism.reproduce rng r.1 e r.2

/-- `Organism.reset`: fresh position/velocity from the navigator, hunger back
to `base_hunger`, alive, flags and the `offspring`/`neighbours` lists cleared. -/
def Organism.reset (nav : Navigator) (o : Org) : Org :=
  { o with position := nav.initialise.1
           velocity := nav.initialise.2
           hunger := (o.base_hunger : ℤ)
           is_alive := true
           reproduced_this_epoch := false
           offspring := []
           neighbours := [] }

/-! ### `Population` -/

structure Population where
  species_name : String
  trophic_level : ℤ
  individuals_specs : OrgSpec
  living_individuals : List ℕ
  dead_individuals : List ℕ
deriving Repr, DecidableEq

/-- `Population.add_individual`: append an existing organism reference. -/
def Population.add_individual (p : Population) (i : ℕ) : Population :=
  { p with living_individuals := p.living_individuals ++ [i] }

/-- `Population.create_individual`: construct `Organism(**individuals_specs)`
and append it to the living list. -/
def Population.create_individual (w : World) (p : Population) :
    World × Population :=
  let r := w.alloc (Organism.init p.individuals_specs)
  (r.1, p.add_individual r.2)

def popCreateLoop : ℕ → World × Population → World × Population
  | 0, wp => wp
  | n + 1, wp => popCreateLoop n (Population.create_individual wp.1 wp.2)

/-- `Population.__init__`: store the spec, start with empty living/dead lists,
then `create_individual` `initial_size` times. -/
def Population.init (w : World) (s : OrgSpec) (initial_size : ℕ) :
    World × Population :=
  popCreateLoop initial_size (w, ⟨s.species_name, s.trophic_level, s, [], []⟩)

/-- `Population.remove_individual`: stash into `dead_individuals`, then
`living_individuals.remove(individual)` (first occurrence). -/
def Population.remove_individual (p : Population) (i : ℕ) : Population :=
  { p with dead_individuals := p.dead_individuals ++ [i]
           living_individuals := p.living_individuals.erase i }

/-- `Population.advance_time` body: Python's `for individual in
self.living_individuals` iterates by index over the list object that
`remove_individual` mutates, so after a relocation the element that slid into
the removed slot is passed over.  Fuel as in `eatLoop`: the index advances
every step and the list never grows, so `length - i` steps suffice;
`Population.advance_time` passes the full length. -/
def popAdvanceLoop (nav : Navigator) (rng : ℕ → Fin 101) :
    ℕ → World → Population → ℕ → ℕ → World × Population × ℕ
  | 0, w, p, _, c => (w, p, c)
  | fuel + 1, w, p, i, c =>
    if h : i < p.living_individuals.length then
      let id := p.living_individuals.get ⟨i, h⟩
      if (w.get id).is_alive then
        let r := Organism.advance_time nav rng w id c
        popAdvanceLoop nav rng fuel r.1 p (i + 1) r.2
      else
        popAdvanceLoop nav rng fuel w (p.remove_individual id) (i + 1) c
    else
      (w, p, c)

def Population.advance_time (nav : Navigator) (rng : ℕ → Fin 101) (w : World)
    (p : Population) (c : ℕ) : World × Population × ℕ :=
  popAdvanceLoop nav rng (p.living_individuals.length) w p 0 c

/-- One step of `Population.advance_epoch`'s loop body: transfer the queued
offspring of one individual into the living list, then reset the individual. -/
def harvestOne (nav : Navigator) (w : World) (p : Population) (id : ℕ) :
    World × Population :=
  (w.modify id (Organism.reset nav),
   { p with living_individuals := p.living_individuals ++ (w.get id).offspring })

def harvestList (nav : Navigator) (w : World) (p : Population) :
    List ℕ → World × Population
  | [] => (w, p)
  | id :: rest =>
      let r := harvestOne nav w p id
      harvestList nav r.1 r.2 rest

/-- `Population.advance_epoch`: iterate over the snapshot list
`dead_individuals + living_individuals` (Python's `+` builds a fresh list, so
the children appended to `living_individuals` during the loop are *not* part
of the iteration), then clear `dead_individuals`
(`reset_dead_individuals`). -/
def Population.advance_epoch (nav : Navigator) (w : World) (p : Population) :
    World × Population :=
  let r := harvestList nav w p (p.dead_individuals ++ p.living_individuals)
  (r.1, { r.2 with dead_individuals := [] })

def Population.get_size (p : Population) : ℕ := p.living_individuals.length

/-! ### `Simulation` -/

structure Simulation where
  time_per_epoch : ℕ
  time : ℕ
  epoch : ℕ
  neighbour_update_interval : ℕ
  neighbour_update_ticks : ℕ
  populations : List Population
  neighbour_range : ℤ
deriving Repr, DecidableEq

/-- Python's `int(...)` truncation toward zero, on a rational. -/
def py_int (q : ℚ) : ℤ := if q < 0 then ⌈q⌉ else ⌊q⌋

/-- `Simulation.calculate_neighbour_range`:
`int(max(speeds) * (2 * neighbour_update_interval + 2))`.
`max` of an empty Python sequence raises `ValueError`, modelled as `none`. -/
def calculate_neighbour_range (speeds : List ℚ) (k : ℕ) : Option ℤ :=
  match speeds with
  | [] => none
  | s :: rest => some (py_int ((rest.foldl max s) * (2 * (k : ℚ) + 2)))

/-- `Simulation.is_in_neighbour_range`: the environment navigator's range check
at threshold `neighbour_range`, on the two organisms' positions. -/
def is_in_neighbour_range (nav : Navigator) (range : ℤ) (w : World)
    (ii jj : ℕ) : Bool :=
  nav.is_in_range (w.get ii).position (w.get jj).position range

/-- Innermost statement of `Simulation.update_neighbours`: if `ind_j` is near
`ind_i`, append it to `ind_i`'s neighbour list (no clearing anywhere). -/
def linkPair (nav : Navigator) (range : ℤ) (w : World) (ii jj : ℕ) : World :=
  if is_in_neighbour_range nav range w ii jj then
    w.modify ii (fun o => { o with neighbours := o.neighbours ++ [jj] })
  else w

/-- The two inner `for ind_i ... for ind_j ...` loops. -/
def linkPops (nav : Navigator) (range : ℤ) (w : World) (pi pj : Population) :
    World :=
  pi.living_individuals.foldl
    (fun w1 ii => pj.living_individuals.foldl
      (fun w2 jj => linkPair nav range w2 ii jj) w1) w

/-- `for pop_index_j in range(pop_index_i, len(...))` with the strict trophic
guard, for one fixed `pop_index_i` whose population heads the suffix. -/
def linkFrom (nav : Navigator) (range : ℤ) (w : World) (pi : Population)
    (pjs : List Population) : World :=
  pjs.foldl
    (fun w1 pj =>
      if pj.trophic_level < pi.trophic_level then linkPops nav range w1 pi pj
      else w1) w

/-- `for pop_index_i in range(len(...))`, realised as a walk over suffixes of
the (trophic-descending) population list. -/
def updateNeighboursAux (nav : Navigator) (range : ℤ) (w : World) :
    List Population → World
  | [] => w
  | pi :: rest => updateNeighboursAux nav range (linkFrom nav range w pi (pi :: rest)) rest

/-- `Simulation.update_neighbours`. -/
def Simulation.update_neighbours (nav : Navigator) (s : Simulation)
    (w : World) : World :=
  updateNeighboursAux nav s.neighbour_range w s.populations

/-- `for pop in self.populations: pop.advance_time()`. -/
def advancePops (nav : Navigator) (rng : ℕ → Fin 101) (w : World)
    (c : ℕ) : List Population → World × List Population × ℕ
  | [] => (w, [], c)
  | p :: ps =>
      let r := Population.advance_time nav rng w p c
      let r2 := advancePops nav rng r.1 r.2.2 ps
      (r2.1, r.2.1 :: r2.2.1, r2.2.2)

/-- `Simulation.advance_time`: refresh the neighbour index when
`neighbour_update_ticks >= neighbour_update_interval` (the counter is *not*
reset there), advance every population in list (trophic) order, then increment
`time` and `neighbour_update_ticks`. -/
def Simulation.advance_time (nav : Navigator) (rng : ℕ → Fin 101) (w : World)
    (s : Simulation) (c : ℕ) : World × Simulation × ℕ :=
  let w1 := if s.neighbour_update_interval ≤ s.neighbour_update_ticks then
      s.update_neighbours nav w
    else w
  let r := advancePops nav rng w1 c s.populations
  (r.1,
   { s with populations := r.2.1
            time := s.time + 1
            neighbour_update_ticks := s.neighbour_update_ticks + 1 },
   r.2.2)

/-- `for pop in self.populations: pop.advance_epoch()`. -/
def epochPops (nav : Navigator) (w : World) :
    List Population → World × List Population
  | [] => (w, [])
  | p :: ps =>
      let r := Population.advance_epoch nav w p
      let r2 := epochPops nav r.1 ps
      (r2.1, r.2 :: r2.2)

/-- `Simulation.advance_epoch`: roll every population over, bump `epoch`,
zero `time` and `neighbour_update_ticks`, then force a refresh. -/
def Simulation.advance_epoch (nav : Navigator) (w : World) (s : Simulation) :
    World × Simulation :=
  let r := epochPops nav w s.populations
  let s1 := { s with populations := r.2
                     epoch := s.epoch + 1
                     time := 0
                     neighbour_update_ticks := 0 }
  (s1.update_neighbours nav r.1, s1)

/-- Iterated `Simulation.advance_time`, for stating tick-by-tick facts. -/
def runTicks (nav : Navigator) (rng : ℕ → Fin 101) :
    ℕ → World × Simulation × ℕ → World × Simulation × ℕ
  | 0, t => t
  | n + 1, t =>
      runTicks nav rng n (Simulation.advance_time nav rng t.1 t.2.1 t.2.2)

/-! ## Invariants of the `eat` loop -/

@[simp] lemma Org.feed_is_alive (o : Org) (f : ℕ) : (o.feed f).is_alive = o.is_alive := rfl
@[simp] lemma Org.feed_trophic (o : Org) (f : ℕ) : (o.feed f).trophic_level = o.trophic_level := rfl
@[simp] lemma Org.feed_base_hunger (o : Org) (f : ℕ) : (o.feed f).base_hunger = o.base_hunger := rfl
@[simp] lemma Org.feed_neighbours (o : Org) (f : ℕ) : (o.feed f).neighbours = o.neighbours := rfl
@[simp] lemma Org.feed_hunger (o : Org) (f : ℕ) : (o.feed f).hunger = o.hunger - f := rfl
@[simp] lemma Org.rfn_is_alive (o : Org) (nb : ℕ) : (o.remove_from_neighbours nb).is_alive = o.is_alive := rfl
@[simp] lemma Org.rfn_trophic (o : Org) (nb : ℕ) : (o.remove_from_neighbours nb).trophic_level = o.trophic_level := rfl
@[simp] lemma Org.rfn_base_hunger (o : Org) (nb : ℕ) : (o.remove_from_neighbours nb).base_hunger = o.base_hunger := rfl
@[simp] lemma Org.rfn_hunger (o : Org) (nb : ℕ) : (o.remove_from_neighbours nb).hunger = o.hunger := rfl
@[simp] lemma Org.rfn_neighbours (o : Org) (nb : ℕ) : (o.remove_from_neighbours nb).neighbours = o.neighbours.erase nb := rfl

/-- Fields every `eat` call leaves intact, plus liveness monotonicity and the
soundness of the lazy dead purge: any reference gone from the eater's
neighbour list belongs to an organism that is dead afterwards. -/
def EatPres (w r : World) (e : ℕ) : Prop :=
  (∀ o, (r.get o).trophic_level = (w.get o).trophic_level) ∧
  (∀ o, (r.get o).base_hunger = (w.get o).base_hunger) ∧
  (∀ o, (r.get o).is_alive = true → (w.get o).is_alive = true) ∧
  (∀ a, a ∈ (w.get e).neighbours → a ∉ (r.get e).neighbours →
      (r.get a).is_alive = false)

/-- An `eat` call either changes no liveness flag and leaves the eater's
hunger alone, or kills exactly one organism: a live, outranked one, whose
death lowers the eater's hunger by exactly `base_hunger / 5 + 1`. -/
def EatOut (w r : World) (e : ℕ) : Prop :=
  EatPres w r e ∧
  (((∀ o, (r.get o).is_alive = (w.get o).is_alive) ∧
      (r.get e).hunger = (w.get e).hunger) ∨
   (∃ o, (w.get o).is_alive = true ∧ (r.get o).is_alive = false ∧
      (w.get o).trophic_level < (w.get e).trophic_level ∧
      (r.get e).hunger = (w.get e).hunger - ((w.get o).base_hunger / 5 + 1) ∧
      ∀ o2, o2 ≠ o → (r.get o2).is_alive = (w.get o2).is_alive))

lemma eatOut_refl (w : World) (e : ℕ) : EatOut w w e := by
  refine ⟨⟨fun _ => rfl, fun _ => rfl, fun _ h => h, fun a ha hna => absurd ha hna⟩, ?_⟩
  exact Or.inl ⟨fun _ => rfl, rfl⟩

/-- Transfer an `EatOut` certificate across a step that only rewrites the
eater's neighbour list (the lazy removal of a dead reference). -/
lemma eatOut_remove_step (w r : World) (e nbId : ℕ)
    (hdead : (w.get nbId).is_alive = false)
    (h : EatOut (w.modify e (fun o => o.remove_from_neighbours nbId)) r e) :
    EatOut w r e := by
  set w1 := w.modify e (fun o => o.remove_from_neighbours nbId) with hw1
  have hget : ∀ o, w1.get o = if o = e
      then (w.get e).remove_from_neighbours nbId else w.get o := by
    intro o
    rw [hw1, World.get_modify]
  have htr : ∀ o, (w1.get o).trophic_level = (w.get o).trophic_level := by
    intro o; rw [hget]; split <;> simp_all
  have hbh : ∀ o, (w1.get o).base_hunger = (w.get o).base_hunger := by
    intro o; rw [hget]; split <;> simp_all
  have hal : ∀ o, (w1.get o).is_alive = (w.get o).is_alive := by
    intro o; rw [hget]; split <;> simp_all
  have hhu : ∀ o, (w1.get o).hunger = (w.get o).hunger := by
    intro o; rw [hget]; split <;> simp_all
  have hnb : (w1.get e).neighbours = (w.get e).neighbours.erase nbId := by
    rw [hget]; simp
  obtain ⟨⟨ptr, pbh, pal, prem⟩, hout⟩ := h
  refine ⟨⟨?_, ?_, ?_, ?_⟩, ?_⟩
  · intro o; rw [ptr o, htr o]
  · intro o; rw [pbh o, hbh o]
  · intro o ho; rw [← hal o]; exact pal o ho
  · intro a ha hna
    by_cases hmem : a ∈ (w1.get e).neighbours
    · exact prem a hmem hna
    · have haeq : a = nbId := by
        by_contra hne
        rw [hnb] at hmem
        exact hmem ((List.mem_erase_of_ne hne).2 ha)
      subst haeq
      have : (r.get a).is_alive = true → False := by
        intro htrue
        have := pal a htrue
        rw [hal a] at this
        rw [hdead] at this
        exact Bool.noConfusion this
      cases hra : (r.get a).is_alive with
      | false => rfl
      | true => exact absurd (this hra) (fun f => f)
  · rcases hout with ⟨hall, hhu1⟩ | ⟨o, ho1, ho2, ho3, ho4, ho5⟩
    · refine Or.inl ⟨fun o => by rw [hall o, hal o], by rw [hhu1, hhu e]⟩
    · refine Or.inr ⟨o, ?_, ho2, ?_, ?_, ?_⟩
      · rw [← hal o]; exact ho1
      · rw [← htr o, ← htr e]; exact ho3
      · rw [ho4, hhu e, hbh o]
      · intro o2 hne; rw [ho5 o2 hne, hal o2]

lemma eatLoop_eq_stop (nav : Navigator) (rng : ℕ → Fin 101) (fuel : ℕ)
    (w : World) (e i c : ℕ) (h : ¬ i < (w.get e).neighbours.length) :
    eatLoop nav rng fuel w e i c = (w, c) := by
  cases fuel with
  | zero => rfl
  | succ fuel => rw [eatLoop]; simp [h]

lemma eatLoop_eq_dead (nav : Navigator) (rng : ℕ → Fin 101) (fuel : ℕ)
    (w : World) (e i c : ℕ) (h : i < (w.get e).neighbours.length)
    (hd : (w.get (w.get e).neighbours[i]).is_alive = false) :
    eatLoop nav rng (fuel + 1) w e i c =
      eatLoop nav rng fuel (w.modify e (fun o =>
        o.remove_from_neighbours (w.get e).neighbours[i])) e (i + 1) c := by
  rw [eatLoop]
  simp [h, hd]

lemma eatLoop_eq_skip (nav : Navigator) (rng : ℕ → Fin 101) (fuel : ℕ)
    (w : World) (e i c : ℕ) (h : i < (w.get e).neighbours.length)
    (ha : (w.get (w.get e).neighbours[i]).is_alive = true)
    (hg : ¬ ((w.get e).outrank (w.get (w.get e).neighbours[i]) = true ∧
        nav.is_in_range (w.get e).position
          (w.get (w.get e).neighbours[i]).position
          (w.get e).feeding_range = true)) :
    eatLoop nav rng (fuel + 1) w e i c = eatLoop nav rng fuel w e (i + 1) c := by
  rw [eatLoop]
  simp [h, ha, hg]

lemma eatLoop_eq_fail (nav : Navigator) (rng : ℕ → Fin 101) (fuel : ℕ)
    (w : World) (e i c : ℕ) (h : i < (w.get e).neighbours.length)
    (ha : (w.get (w.get e).neighbours[i]).is_alive = true)
    (hg1 : (w.get e).outrank (w.get (w.get e).neighbours[i]) = true)
    (hg2 : nav.is_in_range (w.get e).position
        (w.get (w.get e).neighbours[i]).position (w.get e).feeding_range = true)
    (hs : is_successful_attempt (rng c) (w.get e).feeding_chance = false) :
    eatLoop nav rng (fuel + 1) w e i c =
      eatLoop nav rng fuel w e (i + 1) (c + 1) := by
  rw [eatLoop]
  simp [h, ha, hg1, hg2, hs]

lemma eatLoop_eq_kill (nav : Navigator) (rng : ℕ → Fin 101) (fuel : ℕ)
    (w : World) (e i c : ℕ) (h : i < (w.get e).neighbours.length)
    (ha : (w.get (w.get e).neighbours[i]).is_alive = true)
    (hg1 : (w.get e).outrank (w.get (w.get e).neighbours[i]) = true)
    (hg2 : nav.is_in_range (w.get e).position
        (w.get (w.get e).neighbours[i]).position (w.get e).feeding_range = true)
    (hs : is_successful_attempt (rng c) (w.get e).feeding_chance = true) :
    eatLoop nav rng (fuel + 1) w e i c =
      ((w.set (w.get e).neighbours[i]
          ((w.get (w.get e).neighbours[i]).be_eaten).1).modify e
        (fun o => o.feed ((w.get (w.get e).neighbours[i]).be_eaten).2),
       c + 1) := by
  rw [eatLoop]
  simp [h, ha, hg1, hg2, hs]

/-- The fuel argument is irrelevant as soon as it covers the part of the
neighbour list still ahead of the index, so running with fuel equal to the
full list length (as `Organism.eat` does) is exactly Python's unbounded
`for` loop. -/
lemma eatLoop_fuel_ext (nav : Navigator) (rng : ℕ → Fin 101) (e : ℕ) :
    ∀ (f1 f2 : ℕ) (w : World) (i c : ℕ),
      (w.get e).neighbours.length - i ≤ f1 →
      (w.get e).neighbours.length - i ≤ f2 →
      eatLoop nav rng f1 w e i c = eatLoop nav rng f2 w e i c := by
  intro f1
  induction f1 with
  | zero =>
      intro f2 w i c h1 h2
      have hni : ¬ i < (w.get e).neighbours.length := by omega
      rw [eatLoop_eq_stop nav rng 0 w e i c hni,
        eatLoop_eq_stop nav rng f2 w e i c hni]
  | succ f1 ih =>
      intro f2 w i c h1 h2
      by_cases hi : i < (w.get e).neighbours.length
      · obtain ⟨f2, rfl⟩ : ∃ f3, f2 = f3 + 1 := by
          cases f2 with
          | zero => omega
          | succ f3 => exact ⟨f3, rfl⟩
        cases hal : (w.get (w.get e).neighbours[i]).is_alive with
        | false =>
            rw [eatLoop_eq_dead nav rng f1 w e i c hi hal,
              eatLoop_eq_dead nav rng f2 w e i c hi hal]
            apply ih
            · have := (List.erase_sublist ((w.get e).neighbours[i])
                (w.get e).neighbours).length_le
              simp only [World.get_modify_self, Org.rfn_neighbours]
              omega
            · have := (List.erase_sublist ((w.get e).neighbours[i])
                (w.get e).neighbours).length_le
              simp only [World.get_modify_self, Org.rfn_neighbours]
              omega
        | true =>
            by_cases hg : ((w.get e).outrank (w.get (w.get e).neighbours[i]) = true ∧
                nav.is_in_range (w.get e).position
                  (w.get (w.get e).neighbours[i]).position
                  (w.get e).feeding_range = true)
            · cases hs : is_successful_attempt (rng c) (w.get e).feeding_chance with
              | false =>
                  rw [eatLoop_eq_fail nav rng f1 w e i c hi hal hg.1 hg.2 hs,
                    eatLoop_eq_fail nav rng f2 w e i c hi hal hg.1 hg.2 hs]
                  apply ih <;> omega
              | true =>
                  rw [eatLoop_eq_kill nav rng f1 w e i c hi hal hg.1 hg.2 hs,
                    eatLoop_eq_kill nav rng f2 w e i c hi hal hg.1 hg.2 hs]
            · rw [eatLoop_eq_skip nav rng f1 w e i c hi hal hg,
                eatLoop_eq_skip nav rng f2 w e i c hi hal hg]
              apply ih <;> omega
      · rw [eatLoop_eq_stop nav rng (f1 + 1) w e i c hi,
          eatLoop_eq_stop nav rng f2 w e i c hi]

lemma outrank_lt {o nb : Org} (h : o.outrank nb = true) :
    nb.trophic_level < o.trophic_level := by
  simpa [Org.outrank] using h

/-- The successful-feeding step satisfies the `eat` postcondition outright. -/
lemma eatOut_kill (w : World) (e nbId : ℕ)
    (halive : (w.get nbId).is_alive = true)
    (hlt : (w.get nbId).trophic_level < (w.get e).trophic_level) :
    EatOut w ((w.set nbId ((w.get nbId).be_eaten).1).modify e
      (fun q => q.feed ((w.get nbId).be_eaten).2)) e := by
  have hne : nbId ≠ e := by
    intro hcontra
    rw [hcontra] at hlt
    exact lt_irrefl _ hlt
  set r := (w.set nbId ((w.get nbId).be_eaten).1).modify e
      (fun q => q.feed ((w.get nbId).be_eaten).2) with hr
  have hget : ∀ o, r.get o =
      if o = e then (w.get e).feed ((w.get nbId).base_hunger / 5 + 1)
      else if o = nbId then ((w.get nbId).be_eaten).1 else w.get o := by
    intro o
    rw [hr, World.get_modify]
    by_cases h1 : o = e
    · subst h1
      rw [if_pos rfl, if_pos rfl,
        World.get_set_ne w _ (Ne.symm hne)]
      rfl
    · rw [if_neg h1, if_neg h1]
      exact World.get_set w nbId o _
  have hgete : r.get e = (w.get e).feed ((w.get nbId).base_hunger / 5 + 1) := by
    rw [hget]; simp
  have hgetnb : r.get nbId = ((w.get nbId).be_eaten).1 := by
    rw [hget]; simp [hne]
  refine ⟨⟨?_, ?_, ?_, ?_⟩, ?_⟩
  · intro o
    rw [hget]
    by_cases h1 : o = e
    · subst h1; simp
    · by_cases h2 : o = nbId
      · subst h2; simp [h1, Org.be_eaten]
      · simp [h1, h2]
  · intro o
    rw [hget]
    by_cases h1 : o = e
    · subst h1; simp
    · by_cases h2 : o = nbId
      · subst h2; simp [h1, Org.be_eaten]
      · simp [h1, h2]
  · intro o ho
    rw [hget] at ho
    by_cases h1 : o = e
    · subst h1; simpa using ho
    · by_cases h2 : o = nbId
      · subst h2
        rw [if_neg h1, if_pos rfl] at ho
        simp [Org.be_eaten] at ho
      · rw [if_neg h1, if_neg h2] at ho
        exact ho
  · intro a ha hna
    exfalso
    rw [hgete] at hna
    simp at hna
    exact hna ha
  · refine Or.inr ⟨nbId, halive, ?_, hlt, ?_, ?_⟩
    · rw [hgetnb]; simp [Org.be_eaten]
    · rw [hgete]; simp
    · intro o2 hne2
      rw [hget]
      by_cases h1 : o2 = e
      · subst h1; simp
      · simp [h1, hne2]

/-- Master invariant of the `eat` traversal, by induction on the fuel. -/
theorem eatLoop_out (nav : Navigator) (rng : ℕ → Fin 101) (e : ℕ) :
    ∀ (fuel : ℕ) (w : World) (i c : ℕ),
      EatOut w (eatLoop nav rng fuel w e i c).1 e := by
  intro fuel
  induction fuel with
  | zero =>
      intro w i c
      exact eatOut_refl w e
  | succ fuel ih =>
      intro w i c
      by_cases hi : i < (w.get e).neighbours.length
      · cases hal : (w.get (w.get e).neighbours[i]).is_alive with
        | false =>
            rw [eatLoop_eq_dead nav rng fuel w e i c hi hal]
            exact eatOut_remove_step w _ e _ hal (ih _ _ _)
        | true =>
            by_cases hg : ((w.get e).outrank (w.get (w.get e).neighbours[i]) = true ∧
                nav.is_in_range (w.get e).position
                  (w.get (w.get e).neighbours[i]).position
                  (w.get e).feeding_range = true)
            · cases hs : is_successful_attempt (rng c) (w.get e).feeding_chance with
              | false =>
                  rw [eatLoop_eq_fail nav rng fuel w e i c hi hal hg.1 hg.2 hs]
                  exact ih _ _ _
              | true =>
                  rw [eatLoop_eq_kill nav rng fuel w e i c hi hal hg.1 hg.2 hs]
                  exact eatOut_kill w e _ hal (outrank_lt hg.1)
            · rw [eatLoop_eq_skip nav rng fuel w e i c hi hal hg]
              exact ih _ _ _
      · rw [eatLoop_eq_stop nav rng (fuel + 1) w e i c hi]
        exact eatOut_refl w e

lemma eat_out (nav : Navigator) (rng : ℕ → Fin 101) (w : World) (e c : ℕ) :
    EatOut w (Organism.eat nav rng w e c).1 e :=
  eatLoop_out nav rng e ((w.get e).neighbours.length) w 0 c

lemma eat_alive_mono (nav : Navigator) (rng : ℕ → Fin 101) (w : World)
    (e c o : ℕ) (h : ((Organism.eat nav rng w e c).1.get o).is_alive = true) :
    (w.get o).is_alive = true :=
  (eat_out nav rng w e c).1.2.2.1 o h

lemma eat_kill_gating (nav : Navigator) (rng : ℕ → Fin 101) (w : World)
    (e c o : ℕ) (h1 : (w.get o).is_alive = true)
    (h2 : ((Organism.eat nav rng w e c).1.get o).is_alive = false) :
    (w.get o).trophic_level < (w.get e).trophic_level := by
  rcases (eat_out nav rng w e c).2 with ⟨hall, _⟩ | ⟨k, hk1, hk2, hk3, hk4, hk5⟩
  · rw [hall o, h1] at h2
    exact Bool.noConfusion h2
  · by_cases hko : o = k
    · subst hko; exact hk3
    · rw [hk5 o hko, h1] at h2
      exact Bool.noConfusion h2

lemma eat_hunger_formula (nav : Navigator) (rng : ℕ → Fin 101) (w : World)
    (e c o : ℕ) (h1 : (w.get o).is_alive = true)
    (h2 : ((Organism.eat nav rng w e c).1.get o).is_alive = false) :
    ((Organism.eat nav rng w e c).1.get e).hunger =
      (w.get e).hunger - ((w.get o).base_hunger / 5 + 1) := by
  rcases (eat_out nav rng w e c).2 with ⟨hall, _⟩ | ⟨k, hk1, hk2, hk3, hk4, hk5⟩
  · rw [hall o, h1] at h2
    exact Bool.noConfusion h2
  · by_cases hko : o = k
    · subst hko; exact hk4
    · rw [hk5 o hko, h1] at h2
      exact Bool.noConfusion h2

lemma eat_kill_unique (nav : Navigator) (rng : ℕ → Fin 101) (w : World)
    (e c o1 o2 : ℕ) (h1 : (w.get o1).is_alive = true)
    (h2 : ((Organism.eat nav rng w e c).1.get o1).is_alive = false)
    (h3 : (w.get o2).is_alive = true)
    (h4 : ((Organism.eat nav rng w e c).1.get o2).is_alive = false) :
    o1 = o2 := by
  rcases (eat_out nav rng w e c).2 with ⟨hall, _⟩ | ⟨k, hk1, hk2, hk3, hk4, hk5⟩
  · rw [hall o1, h1] at h2
    exact Bool.noConfusion h2
  · by_cases hko : o1 = k
    · by_cases hko2 : o2 = k
      · rw [hko, hko2]
      · rw [hk5 o2 hko2, h3] at h4
        exact Bool.noConfusion h4
    · rw [hk5 o1 hko, h1] at h2
      exact Bool.noConfusion h2

lemma eat_hunger_change (nav : Navigator) (rng : ℕ → Fin 101) (w : World)
    (e c : ℕ)
    (h : ((Organism.eat nav rng w e c).1.get e).hunger ≠ (w.get e).hunger) :
    ∃ o, (w.get o).is_alive = true ∧
      ((Organism.eat nav rng w e c).1.get o).is_alive = false := by
  rcases (eat_out nav rng w e c).2 with ⟨_, hhu⟩ | ⟨k, hk1, hk2, _⟩
  · exact absurd hhu h
  · exact ⟨k, hk1, hk2⟩

lemma eat_removed_dead (nav : Navigator) (rng : ℕ → Fin 101) (w : World)
    (e c a : ℕ) (h1 : a ∈ (w.get e).neighbours)
    (h2 : a ∉ ((Organism.eat nav rng w e c).1.get e).neighbours) :
    ((Organism.eat nav rng w e c).1.get a).is_alive = false :=
  (eat_out nav rng w e c).1.2.2.2 a h1 h2

/-! ## Soundness of the neighbour index construction -/

/-- The organisms listed by a population really carry its trophic level
(true by construction: `Population.__init__` and offspring inherit the spec). -/
def popWellFormed (w : World) (p : Population) : Prop :=
  ∀ a ∈ p.living_individuals, (w.get a).trophic_level = p.trophic_level

lemma linkPair_mem (nav : Navigator) (range : ℤ) (w : World) (ii jj o a : ℕ)
    (h : a ∈ ((linkPair nav range w ii jj).get o).neighbours) :
    a ∈ (w.get o).neighbours ∨ (o = ii ∧ a = jj) := by
  rw [linkPair] at h
  split at h
  · rw [World.get_modify] at h
    by_cases h1 : o = ii
    · rw [if_pos h1] at h
      simp at h
      rcases h with h | h
      · exact Or.inl (h1 ▸ h)
      · exact Or.inr ⟨h1, h⟩
    · rw [if_neg h1] at h
      exact Or.inl h
  · exact Or.inl h

lemma linkInner_mem (nav : Navigator) (range : ℤ) (ii o a : ℕ) :
    ∀ (js : List ℕ) (w : World),
      a ∈ ((js.foldl (fun w2 jj => linkPair nav range w2 ii jj) w).get o).neighbours →
      a ∈ (w.get o).neighbours ∨ (o = ii ∧ a ∈ js) := by
  intro js
  induction js with
  | nil => intro w h; exact Or.inl h
  | cons jj rest ih =>
      intro w h
      rcases ih (linkPair nav range w ii jj) h with h1 | ⟨h1, h2⟩
      · rcases linkPair_mem nav range w ii jj o a h1 with h2 | ⟨h2, h3⟩
        · exact Or.inl h2
        · exact Or.inr ⟨h2, by simp [h3]⟩
      · exact Or.inr ⟨h1, by simp [h2]⟩

lemma linkOuter_mem (nav : Navigator) (range : ℤ) (o a : ℕ) (pj : Population) :
    ∀ (iis : List ℕ) (w : World),
      a ∈ ((iis.foldl (fun w1 ii => pj.living_individuals.foldl
          (fun w2 jj => linkPair nav range w2 ii jj) w1) w).get o).neighbours →
      a ∈ (w.get o).neighbours ∨ (o ∈ iis ∧ a ∈ pj.living_individuals) := by
  intro iis
  induction iis with
  | nil => intro w h; exact Or.inl h
  | cons ii rest ih =>
      intro w h
      rcases ih _ h with h1 | ⟨h1, h2⟩
      · rcases linkInner_mem nav range ii o a pj.living_individuals w h1 with h2 | ⟨h2, h3⟩
        · exact Or.inl h2
        · exact Or.inr ⟨by simp [h2], h3⟩
      · exact Or.inr ⟨by simp [h1], h2⟩

lemma linkPops_mem (nav : Navigator) (range : ℤ) (w : World)
    (pi pj : Population) (o a : ℕ)
    (h : a ∈ ((linkPops nav range w pi pj).get o).neighbours) :
    a ∈ (w.get o).neighbours ∨
      (o ∈ pi.living_individuals ∧ a ∈ pj.living_individuals) :=
  linkOuter_mem nav range o a pj pi.living_individuals w h

lemma linkFrom_mem (nav : Navigator) (range : ℤ) (pi : Population) (o a : ℕ) :
    ∀ (pjs : List Population) (w : World),
      a ∈ ((linkFrom nav range w pi pjs).get o).neighbours →
      a ∈ (w.get o).neighbours ∨
        ∃ pj ∈ pjs, pj.trophic_level < pi.trophic_level ∧
          o ∈ pi.living_individuals ∧ a ∈ pj.living_individuals := by
  intro pjs
  induction pjs with
  | nil => intro w h; exact Or.inl h
  | cons pj rest ih =>
      intro w h
      rw [linkFrom, List.foldl_cons] at h
      have h2 := ih (if pj.trophic_level < pi.trophic_level
        then linkPops nav range w pi pj else w)
      rw [linkFrom] at h2
      rcases h2 h with h1 | ⟨pj2, hm, hlt, ho, ha⟩
      · by_cases hcond : pj.trophic_level < pi.trophic_level
        · rw [if_pos hcond] at h1
          rcases linkPops_mem nav range w pi pj o a h1 with h3 | ⟨h3, h4⟩
          · exact Or.inl h3
          · exact Or.inr ⟨pj, by simp, hcond, h3, h4⟩
        · rw [if_neg hcond] at h1
          exact Or.inl h1
      · exact Or.inr ⟨pj2, by simp [hm], hlt, ho, ha⟩

lemma updateAux_mem (nav : Navigator) (range : ℤ) (o a : ℕ) :
    ∀ (ps : List Population) (w : World),
      a ∈ ((updateNeighboursAux nav range w ps).get o).neighbours →
      a ∈ (w.get o).neighbours ∨
        ∃ pi ∈ ps, ∃ pj ∈ ps, pj.trophic_level < pi.trophic_level ∧
          o ∈ pi.living_individuals ∧ a ∈ pj.living_individuals := by
  intro ps
  induction ps with
  | nil => intro w h; exact Or.inl h
  | cons pi rest ih =>
      intro w h
      rw [updateNeighboursAux] at h
      rcases ih _ h with h1 | ⟨pi2, hm1, pj2, hm2, hlt, ho, ha⟩
      · rcases linkFrom_mem nav range pi o a (pi :: rest) w h1 with h2 | ⟨pj, hm, hlt, ho, ha⟩
        · exact Or.inl h2
        · exact Or.inr ⟨pi, by simp, pj, hm, hlt, ho, ha⟩
      · exact Or.inr ⟨pi2, by simp [hm1], pj2, by simp [hm2], hlt, ho, ha⟩

/-- `Simulation.update_neighbours` only ever appends references to organisms
of strictly lower trophic level (given the construction invariant that a
population's members carry its trophic level). -/
lemma update_neighbours_sound (nav : Navigator) (s : Simulation) (w : World)
    (hwf : ∀ p ∈ s.populations, popWellFormed w p) (o a : ℕ)
    (h : a ∈ ((s.update_neighbours nav w).get o).neighbours) :
    a ∈ (w.get o).neighbours ∨
      (w.get a).trophic_level < (w.get o).trophic_level := by
  rcases updateAux_mem nav s.neighbour_range o a s.populations w h with
    h1 | ⟨pi, hm1, pj, hm2, hlt, ho, ha⟩
  · exact Or.inl h1
  · right
    rw [hwf pi hm1 o ho, hwf pj hm2 a ha]
    exact hlt

/-! ## Equations for the population tick loop -/

lemma popAdvanceLoop_eq_stop (nav : Navigator) (rng : ℕ → Fin 101) (fuel : ℕ)
    (w : World) (p : Population) (i c : ℕ)
    (h : ¬ i < p.living_individuals.length) :
    popAdvanceLoop nav rng fuel w p i c = (w, p, c) := by
  cases fuel with
  | zero => rfl
  | succ fuel => rw [popAdvanceLoop]; simp [h]

lemma popAdvanceLoop_eq_alive (nav : Navigator) (rng : ℕ → Fin 101) (fuel : ℕ)
    (w : World) (p : Population) (i c : ℕ)
    (h : i < p.living_individuals.length)
    (ha : (w.get p.living_individuals[i]).is_alive = true) :
    popAdvanceLoop nav rng (fuel + 1) w p i c =
      popAdvanceLoop nav rng fuel
        (Organism.advance_time nav rng w p.living_individuals[i] c).1 p (i + 1)
        (Organism.advance_time nav rng w p.living_individuals[i] c).2 := by
  rw [popAdvanceLoop]
  simp [h, ha]

lemma popAdvanceLoop_eq_dead (nav : Navigator) (rng : ℕ → Fin 101) (fuel : ℕ)
    (w : World) (p : Population) (i c : ℕ)
    (h : i < p.living_individuals.length)
    (ha : (w.get p.living_individuals[i]).is_alive = false) :
    popAdvanceLoop nav rng (fuel + 1) w p i c =
      popAdvanceLoop nav rng fuel w
        (p.remove_individual p.living_individuals[i]) (i + 1) c := by
  rw [popAdvanceLoop]
  simp [h, ha]

/-- As for `eatLoop`: fuel above `length - i` is irrelevant, so
`Population.advance_time`'s full-length fuel realises Python's `for` loop. -/
lemma popAdvanceLoop_fuel_ext (nav : Navigator) (rng : ℕ → Fin 101) :
    ∀ (f1 f2 : ℕ) (w : World) (p : Population) (i c : ℕ),
      p.living_individuals.length - i ≤ f1 →
      p.living_individuals.length - i ≤ f2 →
      popAdvanceLoop nav rng f1 w p i c = popAdvanceLoop nav rng f2 w p i c := by
  intro f1
  induction f1 with
  | zero =>
      intro f2 w p i c h1 h2
      have hni : ¬ i < p.living_individuals.length := by omega
      rw [popAdvanceLoop_eq_stop nav rng 0 w p i c hni,
        popAdvanceLoop_eq_stop nav rng f2 w p i c hni]
  | succ f1 ih =>
      intro f2 w p i c h1 h2
      by_cases hi : i < p.living_individuals.length
      · obtain ⟨f2, rfl⟩ : ∃ f3, f2 = f3 + 1 := by
          cases f2 with
          | zero => omega
          | succ f3 => exact ⟨f3, rfl⟩
        cases hal : (w.get p.living_individuals[i]).is_alive with
        | true =>
            rw [popAdvanceLoop_eq_alive nav rng f1 w p i c hi hal,
              popAdvanceLoop_eq_alive nav rng f2 w p i c hi hal]
            apply ih <;> omega
        | false =>
            rw [popAdvanceLoop_eq_dead nav rng f1 w p i c hi hal,
              popAdvanceLoop_eq_dead nav rng f2 w p i c hi hal]
            have := (List.erase_sublist (p.living_individuals[i])
              p.living_individuals).length_le
            apply ih
            · simp only [Population.remove_individual]
              omega
            · simp only [Population.remove_individual]
              omega
      · rw [popAdvanceLoop_eq_stop nav rng (f1 + 1) w p i c hi,
          popAdvanceLoop_eq_stop nav rng f2 w p i c hi]

/-! ## Concrete navigator and oracle instances, and scenario states

`stillNav` is the wall-bounce `ClassicNavigator` specialised to the scenarios
below, whose organisms all move at speed 0 from in-bounds positions: a
zero-speed move keeps the position (`position + 0 * orientation`), and the
Euclidean test `sqrt(sqDist a b) <= r` is written in the equivalent
square-free form `0 <= r ∧ sqDist a b <= r^2`. -/

/-- Squared Euclidean distance over the rationals. -/
def sqDist (a b : ℤ × ℤ) : ℤ := (b.1 - a.1) ^ 2 + (b.2 - a.2) ^ 2

def stillNav : Navigator :=
  { move := fun p _ _ => (p, (0, 0))
    is_in_range := fun a b r => decide (0 ≤ r) && decide (sqDist a b ≤ r ^ 2)
    initialise := ((0, 0), (0, 0)) }

/-- One fixed random stream (every draw is 0). -/
def rng0 : ℕ → Fin 101 := fun _ => 0

/-- C7 scenario: predator of trophic level 2 with `feeding_chance = 100` and a
trophic-level-1 prey, both at speed 0 and distance 0,
`neighbour_update_interval = 1`. -/
def predSpec : OrgSpec := ⟨"fox", 2, 0, 9, 1, 100, 0, 1⟩

def preySpec : OrgSpec := ⟨"hare", 1, 0, 7, 1, 100, 0, 1⟩

/-- The predator at the start of an epoch: constructed, then `reset` (alive,
`hunger = base_hunger`, position from the navigator). -/
def predOrg : Org := Organism.reset stillNav (Organism.init predSpec)

def preyOrg : Org := Organism.reset stillNav (Organism.init preySpec)

def w7 : World :=
  ⟨fun i => if i = 0 then predOrg else if i = 1 then preyOrg
    else Organism.init defaultSpec, 2⟩

def predPop : Population := ⟨"fox", 2, predSpec, [0], []⟩

def preyPop : Population := ⟨"hare", 1, preySpec, [1], []⟩

def sim7 : Simulation := ⟨10, 0, 0, 1, 0, [predPop, preyPop], 0⟩

/-- One refresh (as at the head of `start_simulation`) followed by one tick. -/
def run7 : World × Simulation × ℕ :=
  Simulation.advance_time stillNav rng0
    (Simulation.update_neighbours stillNav sim7 w7) sim7 0

/-- C2 scenario: freshly constructed populations (one predator, one prey, both
still at the constructor position `(0,0)`), with speeds 1 and
`neighbour_update_interval = 1`, so `neighbour_range = int(1*(2*1+2)) = 4`. -/
def spec2p : OrgSpec := ⟨"fox", 2, 1, 9, 1, 100, 0, 1⟩

def spec2q : OrgSpec := ⟨"hare", 1, 1, 7, 1, 100, 0, 1⟩

def build2a : World × Population := Population.init emptyWorld spec2p 1

def build2b : World × Population := Population.init build2a.1 spec2q 1

def sim2 : Simulation := ⟨10, 0, 0, 1, 0, [build2a.2, build2b.2], 4⟩

def w2refresh1 : World := Simulation.update_neighbours stillNav sim2 build2b.1

def w2refresh2 : World := Simulation.update_neighbours stillNav sim2 w2refresh1

/-- C3 scenario: interval 2, two live organisms (predator at `(0,0)`, prey at
`(3,0)`), speeds 1, so `neighbour_range = int(1*(2*2+2)) = 6` links them at
every refresh, while `feeding_range = 1` keeps feeding (and hence any oracle
draw) out of reach. -/
def spec3p : OrgSpec := ⟨"wolf", 2, 1, 5, 1, 100, 0, 0⟩

def spec3q : OrgSpec := ⟨"deer", 1, 1, 5, 1, 100, 0, 0⟩

def org3p : Org := { Organism.init spec3p with is_alive := true, hunger := 1 }

def org3q : Org :=
  { Organism.init spec3q with is_alive := true, hunger := 1, position := (3, 0) }

def w3 : World :=
  ⟨fun i => if i = 0 then org3p else if i = 1 then org3q
    else Organism.init defaultSpec, 2⟩

def sim3 : Simulation :=
  ⟨100, 0, 0, 2, 0, [⟨"wolf", 2, spec3p, [0], []⟩, ⟨"deer", 1, spec3q, [1], []⟩], 6⟩

def run3 (n : ℕ) : World × Simulation × ℕ := runTicks stillNav rng0 n (w3, sim3, 0)

/-- C4 scenario: a population of one live parent that queued one offspring
(arena slot 1, still in its constructor state) during the ending epoch. -/
def spec4 : OrgSpec := ⟨"amoeba", 1, 0, 5, 1, 0, 100, 1⟩

def parent4 : Org :=
  { Organism.reset stillNav (Organism.init spec4) with offspring := [1] }

def child4 : Org := Organism.init spec4

def w4 : World :=
  ⟨fun i => if i = 0 then parent4 else if i = 1 then child4
    else Organism.init defaultSpec, 2⟩

def pop4 : Population := ⟨"amoeba", 1, spec4, [0], []⟩

def run4 : World × Population := Population.advance_epoch stillNav w4 pop4

/-- C5 scenario: a freshly constructed `Simulation` carrying one population of
two constructor-state organisms, put through `start_simulation`'s prefix (set
`time = 0`, refresh the neighbour index) and then the first tick. -/
def spec5 : OrgSpec := ⟨"amoeba", 1, 0, 3, 1, 0, 0, 0⟩

def build5 : World × Population := Population.init emptyWorld spec5 2

def sim5 : Simulation := ⟨10, 0, 0, 3, 0, [build5.2], 0⟩

def run5 : World × Simulation × ℕ :=
  Simulation.advance_time stillNav rng0
    (Simulation.update_neighbours stillNav sim5 build5.1) sim5 0

/-- C6 scenario: a population whose living list holds two dead-flagged
organisms when `advance_time` is called. -/
def spec6 : OrgSpec := ⟨"hare", 1, 0, 5, 1, 0, 0, 0⟩

def w6 : World :=
  ⟨fun i => if i ≤ 1 then Organism.init spec6 else Organism.init defaultSpec, 2⟩

def pop6 : Population := ⟨"hare", 1, spec6, [0, 1], []⟩

def run6 : World × Population × ℕ :=
  Population.advance_time stillNav rng0 w6 pop6 0

/-- C8 witness scenario: a single `eat` call of a level-2 predator whose
neighbour list holds a live level-1 prey at distance 0. -/
def pred8 : Org := { predOrg with neighbours := [1] }

def w8 : World :=
  ⟨fun i => if i = 0 then pred8 else if i = 1 then preyOrg
    else Organism.init defaultSpec, 2⟩

def run8 : World × ℕ := Organism.eat stillNav rng0 w8 0 0

/-- C9 scenario: an eater whose neighbour list holds two dead organisms. -/
def spec9 : OrgSpec := ⟨"fox", 2, 0, 9, 1, 100, 0, 0⟩

def eater9 : Org :=
  { Organism.reset stillNav (Organism.init spec9) with neighbours := [1, 2] }

def w9 : World :=
  ⟨fun i => if i = 0 then eater9 else if i ≤ 2 then Organism.init preySpec
    else Organism.init defaultSpec, 3⟩

def run9 : World × ℕ := Organism.eat stillNav rng0 w9 0 0

/-! ## Claim theorems -/

lemma calculate_distance_horizontal (x : ℝ) (hx : 0 ≤ x) :
    calculate_distance (0, 0) (x, 0) = x := by
  rw [calculate_distance]
  simp
  exact Real.sqrt_sq hx

/-- C1 (counterexample): the claimed neighbour-range non-miss guarantee is
false as stated.  With max speed `v = 1`, interval `k = 1` and
`feeding_range = 10`, two stationary organisms at distance 5 are within
feeding range from the very start of the window, yet their distance at the
window start exceeds `neighbour_range = v*(2k+2) = 4`, so they are not
neighbour-linked and the encounter is missed. -/
theorem C1_counterexample : ¬ neighbour_non_miss 1 1 10 := by
  intro h
  have h5 : calculate_distance ((0 : ℝ), (0 : ℝ)) ((5 : ℝ), (0 : ℝ)) = 5 :=
    calculate_distance_horizontal 5 (by norm_num)
  have hb : boundedStep 1 (fun _ => ((0 : ℝ), (0 : ℝ))) := by
    intro t; rw [calculate_distance_self]; norm_num
  have hb2 : boundedStep 1 (fun _ => ((5 : ℝ), (0 : ℝ))) := by
    intro t; rw [calculate_distance_self]; norm_num
  have hc := h (fun _ => ((0 : ℝ), (0 : ℝ))) (fun _ => ((5 : ℝ), (0 : ℝ)))
    hb hb2 0 (by norm_num) (by rw [h5]; norm_num)
  rw [h5, neighbour_range_formula] at hc
  norm_num at hc

/-- C1 (amended): the non-miss guarantee holds under the additional hypothesis
`feeding_range ≤ 2 * v`, the regime the `v*(2k+2)` bound was designed for:
two `v`-bounded trajectories that are within `fr` at some tick `t ≤ k` of the
window were within `v*t + fr + v*t ≤ v*(2k+2)` of each other at the window
start. -/
theorem C1_amended (v : ℝ) (k : ℕ) (fr : ℝ) (hfr : fr ≤ 2 * v) :
    neighbour_non_miss v k fr := by
  intro p q hp hq t ht hd
  have hv : 0 ≤ v := le_trans (calculate_distance_nonneg (p 0) (p 1)) (hp 0)
  have h1 : calculate_distance (p 0) (p t) ≤ v * t := boundedStep_chain hp t
  have h2 : calculate_distance (q 0) (q t) ≤ v * t := boundedStep_chain hq t
  have htv : v * t ≤ v * k :=
    mul_le_mul_of_nonneg_left (by exact_mod_cast ht) hv
  have tri1 : calculate_distance (p 0) (q 0) ≤
      calculate_distance (p 0) (p t) + calculate_distance (p t) (q 0) :=
    calculate_distance_triangle _ _ _
  have tri2 : calculate_distance (p t) (q 0) ≤
      calculate_distance (p t) (q t) + calculate_distance (q t) (q 0) :=
    calculate_distance_triangle _ _ _
  have hsym : calculate_distance (q t) (q 0) = calculate_distance (q 0) (q t) :=
    calculate_distance_comm _ _
  rw [neighbour_range_formula]
  have hexp : v * (2 * (k : ℝ) + 2) = v * k + v * k + 2 * v := by ring
  rw [hexp]
  linarith

/-- C1 (witness): the amended theorem applied to two stationary coincident
trajectories with `v = 1`, `k = 1`, `fr = 2`. -/
theorem C1_witness :
    calculate_distance ((0 : ℝ), (0 : ℝ)) ((0 : ℝ), (0 : ℝ)) ≤
      neighbour_range_formula 1 1 :=
  C1_amended 1 1 2 (by norm_num) (fun _ => ((0 : ℝ), (0 : ℝ)))
    (fun _ => ((0 : ℝ), (0 : ℝ)))
    (fun t => by rw [calculate_distance_self]; norm_num)
    (fun t => by rw [calculate_distance_self]; norm_num)
    0 (by norm_num) (by rw [calculate_distance_self]; norm_num)

/-- C2 (code bug): `update_neighbours` appends without clearing.  For a fresh
two-population simulation (predator and prey both at the constructor position
`(0,0)`, speeds 1, interval 1, so `neighbour_range = 4`), the first refresh
links the prey once, and a second refresh leaves the stale entry in place and
appends a duplicate, contradicting clear-then-repopulate.  The prey (lowest
level) tracks no neighbours. -/
theorem C2_bug :
    (w2refresh1.get 0).neighbours = [1] ∧
    (w2refresh2.get 0).neighbours = [1, 1] ∧
    (w2refresh1.get 1).neighbours = [] ∧
    calculate_neighbour_range [1, 1] 1 = some 4 :=
  ⟨by decide, by decide, by decide,
   by norm_num [calculate_neighbour_range, py_int]⟩

/-- C3 (code bug): `Simulation.advance_time` never resets
`neighbour_update_ticks`, so with interval 2 the counter keeps growing
(3, then 4 — never back to 0) and the index is refreshed on tick 3 *and* on
the consecutive tick 4 (the predator's neighbour list, refreshed by append,
grows from 0 to 1 to 2 entries), not every 2 ticks as claimed. -/
theorem C3_bug :
    ((run3 2).1.get 0).neighbours.length = 0 ∧
    ((run3 3).1.get 0).neighbours.length = 1 ∧
    ((run3 4).1.get 0).neighbours.length = 2 ∧
    (run3 3).2.1.neighbour_update_ticks = 3 ∧
    (run3 4).2.1.neighbour_update_ticks = 4 ∧
    (run3 4).2.1.time = 4 ∧
    calculate_neighbour_range [1, 1] 2 = some 6 :=
  ⟨by decide, by decide, by decide, by decide, by decide, by decide,
   by norm_num [calculate_neighbour_range, py_int]⟩

/-- C4 (code bug): `Population.advance_epoch` iterates the snapshot
`dead + living` built before the loop, so offspring appended to the living
list during the harvest are never `reset`: after the rollover the child
(arena slot 1) is in `living_individuals` but still has `is_alive = false`
and `hunger = 0` from the constructor, while the reset parent is alive.  The
dead set is empty as claimed. -/
theorem C4_bug :
    run4.2.living_individuals = [0, 1] ∧
    run4.2.dead_individuals = [] ∧
    (run4.1.get 0).is_alive = true ∧
    (run4.1.get 1).is_alive = false ∧
    (run4.1.get 1).hunger = 0 :=
  ⟨by decide, by decide, by decide, by decide, by decide⟩

/-- C5 (counterexample): in a freshly constructed simulation with one
population of two (dead-flagged) constructor-state organisms, the first tick
after `start_simulation`'s initial refresh does *not* relocate every initial
organism: relocating index 0 shifts the list under the iterator, so organism 1
stays in the living set. -/
theorem C5_counterexample :
    run5.2.1.populations.map Population.living_individuals ≠ [[]] ∧
    build5.2.living_individuals = [0, 1] ∧
    run5.2.1.populations.map Population.living_individuals = [[1]] ∧
    run5.2.1.populations.map Population.dead_individuals = [[0]] :=
  ⟨by decide, by decide, by decide, by decide⟩

/-- C5 (amended): every constructed organism starts with `is_alive = false`,
`hunger = 0` and position `(0,0)`, and `start_simulation` performs no epoch
reset before the tick loop, so on the first tick no initial organism runs
move/eat/reproduce (the arena is untouched); but because relocation mutates
the living list during traversal, only the initial organisms at alternating
positions are relocated to `dead_individuals` on that tick (here: organism 0
of the two), the other remaining in `living_individuals` unprocessed. -/
theorem C5_amended :
    (∀ s : OrgSpec, (Organism.init s).is_alive = false ∧
      (Organism.init s).hunger = 0 ∧ (Organism.init s).position = (0, 0)) ∧
    build5.2.living_individuals = [0, 1] ∧
    run5.1.get 0 = build5.1.get 0 ∧
    run5.1.get 1 = build5.1.get 1 ∧
    run5.2.1.populations.map Population.living_individuals = [[1]] ∧
    run5.2.1.populations.map Population.dead_individuals = [[0]] :=
  ⟨fun s => ⟨rfl, rfl, rfl⟩, by decide, by decide, by decide, by decide,
   by decide⟩

/-- C6 (code bug): `Population.advance_time` iterates the living list while
`remove_individual` mutates it.  With two dead-flagged organisms it relocates
organism 0, the iterator skips the shifted organism 1, and the call ends with
organism 1 still in `living_individuals` (untouched), contradicting
"no individual is skipped". -/
theorem C6_bug :
    run6.2.1.living_individuals = [1] ∧
    run6.2.1.dead_individuals = [0] ∧
    run6.1.get 1 = w6.get 1 ∧
    (w6.get 1).is_alive = false :=
  ⟨by decide, by decide, by decide, by decide⟩

/-- C7 (confirmed): feeding-event semantics.  (i) In any `eat` call, if an
organism flips from alive to dead then the eater's hunger drops by exactly
`base_hunger / 5 + 1` of that prey, and it is the only organism consumed in
the call (`eat` returns immediately after one feeding).  (ii) A trial at
`feeding_chance = 100` succeeds on every possible draw.  (iii) Concretely:
predator (level 2, chance 100, speed 0, `base_hunger = 9`) and prey (level 1,
speed 0, `base_hunger = 7`) at distance 0 with interval 1: after one refresh
plus one tick the prey is dead (and swept to `dead_individuals`) and the
predator's hunger is `9 - (7/5 + 1) = 7`. -/
theorem C7_feeding :
    (∀ (nav : Navigator) (rng : ℕ → Fin 101) (w : World) (e c o : ℕ),
      (w.get o).is_alive = true →
      ((Organism.eat nav rng w e c).1.get o).is_alive = false →
      ((Organism.eat nav rng w e c).1.get e).hunger =
          (w.get e).hunger - ((w.get o).base_hunger / 5 + 1) ∧
        ∀ o2, (w.get o2).is_alive = true →
          ((Organism.eat nav rng w e c).1.get o2).is_alive = false → o2 = o) ∧
    (∀ d : Fin 101, is_successful_attempt d 100 = true) ∧
    (run7.1.get 1).is_alive = false ∧
    (run7.1.get 0).hunger =
      (predSpec.base_hunger : ℤ) - ((preySpec.base_hunger / 5 + 1 : ℕ) : ℤ) ∧
    run7.2.1.populations.map Population.dead_individuals = [[], [1]] :=
  ⟨fun nav rng w e c o h1 h2 =>
    ⟨eat_hunger_formula nav rng w e c o h1 h2,
     fun o2 h3 h4 => eat_kill_unique nav rng w e c o2 o h3 h4 h1 h2⟩,
   by decide, by decide, by decide, by decide⟩

/-- C7 (witness): the general part of `C7_feeding` applied to a concrete
`eat` call (predator 0 consumes prey 1 in `w8`). -/
theorem C7_witness :
    ((Organism.eat stillNav rng0 w8 0 0).1.get 0).hunger =
      (w8.get 0).hunger - ((w8.get 1).base_hunger / 5 + 1) :=
  (C7_feeding.1 stillNav rng0 w8 0 0 1 (by decide) (by decide)).1

/-- C8 (confirmed): strict trophic gating.  (i) In any `eat` call, an
organism consumed (alive before, dead after) is strictly outranked by the
eater.  (ii) Any reference `update_neighbours` adds to an organism's
neighbour list (given that populations list organisms of their own trophic
level) points to an organism of strictly lower trophic level. -/
theorem C8_trophic_gating :
    (∀ (nav : Navigator) (rng : ℕ → Fin 101) (w : World) (e c o : ℕ),
      (w.get o).is_alive = true →
      ((Organism.eat nav rng w e c).1.get o).is_alive = false →
      (w.get o).trophic_level < (w.get e).trophic_level) ∧
    (∀ (nav : Navigator) (s : Simulation) (w : World),
      (∀ p ∈ s.populations, popWellFormed w p) →
      ∀ o a, a ∈ ((s.update_neighbours nav w).get o).neighbours →
        a ∈ (w.get o).neighbours ∨
          (w.get a).trophic_level < (w.get o).trophic_level) :=
  ⟨fun nav rng w e c o h1 h2 => eat_kill_gating nav rng w e c o h1 h2,
   fun nav s w hwf o a h => update_neighbours_sound nav s w hwf o a h⟩

/-- C8 (witness): the gating applied to the concrete `eat` call in `w8`. -/
theorem C8_witness :
    (w8.get 1).trophic_level < (w8.get 0).trophic_level :=
  C8_trophic_gating.1 stillNav rng0 w8 0 0 1 (by decide) (by decide)

/-- C9 (counterexample): with a neighbour list of two dead organisms, `eat`
removes the first at index 0, the list shifts under the live iterator, and
the call returns with the dead organism 2 *still in the neighbour list* —
iteration did not continue over the remaining neighbour. -/
theorem C9_counterexample :
    (w9.get 0).neighbours = [1, 2] ∧
    (w9.get 1).is_alive = false ∧
    (w9.get 2).is_alive = false ∧
    (run9.1.get 0).neighbours = [2] ∧
    (run9.1.get 2).is_alive = false :=
  ⟨by decide, by decide, by decide, by decide, by decide⟩

/-- C9 (amended): during `eat`, (i) any reference no longer in the eater's
neighbour list after the call belongs to an organism that is dead after the
call (only observed-dead neighbours are removed); (ii) no organism is revived;
(iii) the eater's hunger changes only when a live prey is actually killed, so
a dead organism is never consumed; but the removal shifts the list under the
iterator, so the neighbour immediately after a removed one is skipped in that
call and a dead reference can survive it (concretely, `[1, 2]` with both dead
becomes `[2]`, with the eater's hunger untouched). -/
theorem C9_amended :
    (∀ (nav : Navigator) (rng : ℕ → Fin 101) (w : World) (e c a : ℕ),
      a ∈ (w.get e).neighbours →
      a ∉ ((Organism.eat nav rng w e c).1.get e).neighbours →
      ((Organism.eat nav rng w e c).1.get a).is_alive = false) ∧
    (∀ (nav : Navigator) (rng : ℕ → Fin 101) (w : World) (e c o : ℕ),
      ((Organism.eat nav rng w e c).1.get o).is_alive = true →
      (w.get o).is_alive = true) ∧
    (∀ (nav : Navigator) (rng : ℕ → Fin 101) (w : World) (e c : ℕ),
      ((Organism.eat nav rng w e c).1.get e).hunger ≠ (w.get e).hunger →
      ∃ o, (w.get o).is_alive = true ∧
        ((Organism.eat nav rng w e c).1.get o).is_alive = false) ∧
    (run9.1.get 0).neighbours = [2] ∧
    (run9.1.get 0).hunger = (w9.get 0).hunger :=
  ⟨fun nav rng w e c a h1 h2 => eat_removed_dead nav rng w e c a h1 h2,
   fun nav rng w e c o h => eat_alive_mono nav rng w e c o h,
   fun nav rng w e c h => eat_hunger_change nav rng w e c h,
   by decide, by decide⟩

/-- C9 (witness): the purge-soundness part of `C9_amended` applied to the
removed dead neighbour 1 of the concrete call on `w9`. -/
theorem C9_witness :
    ((Organism.eat stillNav rng0 w9 0 0).1.get 1).is_alive = false :=
  C9_amended.1 stillNav rng0 w9 0 0 1 (by decide) (by decide)

/-- C10 (code bug): with zero populations the speeds list is empty and
Python's `max([])` raises `ValueError`, so `calculate_neighbour_range`
crashes (modelled as `none`) instead of completing; with populations of zero
max speed it completes with range 0 (`int(0 * (2k+2))`). -/
theorem C10_bug :
    calculate_neighbour_range [] 1 = none ∧
    calculate_neighbour_range [] 0 = none ∧
    calculate_neighbour_range [0, 0] 3 = some 0 :=
  ⟨by decide, by decide, by norm_num [calculate_neighbour_range, py_int]⟩
